import Mathlib

/-!
Shallow embedding of `src/client.py` (alphavantage Python client).

The client exposes ~18 analytic operations, each following one template:
assert enumerated arguments are members of fixed sets, build an ordered
parameter mapping (credential appended last), perform one HTTP GET, raise
on non-success status, and dispatch on the declared data format to either
a CSV normalizer (`process_csv`) or a JSON pass-through (`process_json`).

External collaborators are modelled explicitly:
  * the HTTP transport is a function argument (`Transport`); the number of
    transport invocations is recorded in every call result;
  * `pandas.read_csv` is modelled as a strict delimited decoder (`read_csv`):
    header row plus data rows, a row whose field count differs from the
    header's fails the decode;
  * `json.loads` is modelled by an executable recursive-descent parser
    (`json_loads`) over the JSON core grammar (integer numerals, strings
    without escape sequences, arrays, objects, booleans, null);
  * Python `str.upper` is modelled on the ASCII range (`pyUpper`).

Python `assert` failures, transport failures (`requests` connection errors
and `raise_for_status`), and decode failures surface as the three error
conditions of the client's error taxonomy (`ClientError`).
-/

/-- The fixed interval enumeration (`intervals` in client.py, lines 14-23). -/
def intervals : List String :=
  ["1min", "5min", "15min", "30min", "60min", "daily", "weekly", "monthly"]

/-- The fixed series-type enumeration (client.py line 24). -/
def series_types : List String := ["close", "open", "high", "low"]

/-- The fixed data-format enumeration (client.py line 25). -/
def data_formats : List String := ["json", "csv"]

/-- The fixed output-size enumeration (client.py line 26). -/
def output_sizes : List String := ["full", "compact"]

/-- A query-parameter value: the Python dict literals hold either strings or
raw integers (e.g. `time_period` in `sma` vs `str(time_period)` in `adx`). -/
inductive PValue where
  | str (s : String)
  | int (n : Int)
deriving Repr, DecidableEq

/-- The client's error taxonomy: assertion failure on an enumerated argument,
transport-level failure (connection error or non-success HTTP status), or a
response-body decode failure. -/
inductive ClientError where
  | invalidArgument
  | transportError
  | decodeError
deriving Repr, DecidableEq

/-- Result of one attempted HTTP GET: `error` models a raised connection
failure inside `requests.get`; `response` carries the status code checked by
`raise_for_status` and the body. -/
inductive HttpResponse where
  | error
  | response (status : Nat) (body : String)

/-- The HTTP transport collaborator: one GET with the given query parameters. -/
abbrev Transport := List (String × PValue) → HttpResponse

/-- `raise_for_status` raises exactly for client/server error codes. -/
def transportFails : HttpResponse → Bool
  | HttpResponse.error => true
  | HttpResponse.response status _ => decide (400 ≤ status ∧ status < 600)

/-- ASCII model of Python `str.upper` on one character. -/
def pyUpperChar (c : Char) : Char :=
  if 97 ≤ c.toNat ∧ c.toNat ≤ 122 then Char.ofNat (c.toNat - 32) else c

/-- ASCII model of Python `str.upper` (client.py `symbol.upper()`). -/
def pyUpper (s : String) : String := String.mk (s.data.map pyUpperChar)

/-- The client object: fields set in `Client.__init__` (client.py lines 33-43)
and never reassigned afterwards. -/
structure Client where
  apikey : String
  base_url : String
  max_attempts : Int
deriving Repr, DecidableEq

/-- `Client.__init__`: stores the token, the fixed base URL and the (unused)
retry-count configuration. -/
def Client.init (token : String) (max_attempts : Int) : Client :=
  { apikey := token
    base_url := "https://www.alphavantage.co/query?"
    max_attempts := max_attempts }

/-- Result of `process_csv` (client.py lines 45-53): a data frame whose first
column was renamed to `time` and then moved to the index by `set_index`. -/
structure Table where
  index : String
  columns : List String
  rows : List (String × List String)
deriving Repr, DecidableEq

/-- Split a character list at every occurrence of a separator; always returns
at least one (possibly empty) chunk. -/
def splitOnChar (sep : Char) : List Char → List (List Char)
  | [] => [[]]
  | c :: cs =>
    if c = sep then [] :: splitOnChar sep cs
    else
      match splitOnChar sep cs with
      | [] => [[c]]
      | f :: rest => (c :: f) :: rest

/-- Split a string at a separator character. -/
def splitFields (sep : Char) (s : String) : List String :=
  (splitOnChar sep s.data).map String.mk

/-- Split a body into lines, ignoring one trailing newline (as the pandas
reader does). -/
def splitLines (s : String) : List String :=
  let ls := splitFields '\n' s
  if ls.getLast? = some "" then ls.dropLast else ls

/-- Model of the external `pandas.read_csv` used at client.py line 47: decode
the body as delimited text (unquoted fields) with a header row; a body with no
lines, or a data row whose field count differs from the header's, fails the
decode. -/
def read_csv (body : String) : Except ClientError (List String × List (List String)) :=
  match splitLines body with
  | [] => Except.error ClientError.decodeError
  | headerLine :: rest =>
    let header := splitFields ',' headerLine
    let rows := rest.map (fun l => splitFields ',' l)
    if rows.all (fun r => r.length = header.length) then Except.ok (header, rows)
    else Except.error ClientError.decodeError

/-- The conditional rename of the first header cell (client.py lines 49-51):
`if columns[0] != "time": columns[0] = "time"`. -/
def renameFirst : List String → List String
  | [] => []
  | c0 :: rest => (if c0 ≠ "time" then "time" else c0) :: rest

/-- `Client.process_csv` (client.py lines 45-53): decode the delimited body,
rename the first column to `time`, and set it as the row index. Rows keep
response order and cell values are passed through unmodified. -/
def process_csv (body : String) : Except ClientError Table :=
  match read_csv body with
  | Except.ok (header, rows) =>
    Except.ok
      { index := (renameFirst header).headD ""
        columns := (renameFirst header).tail
        rows := rows.map (fun r => (r.headD "", r.tail)) }
  | Except.error e => Except.error e

/-- A JSON value: the nested-mapping representation produced by the `json.loads`
model. -/
inductive JValue where
  | null
  | bool (b : Bool)
  | num (n : Int)
  | str (s : String)
  | arr (xs : List JValue)
  | obj (fields : List (String × JValue))
deriving Repr

/-- Skip JSON whitespace. -/
def skipWs : List Char → List Char
  | [] => []
  | c :: cs =>
    if c = ' ' ∨ c = '\n' ∨ c = '\t' ∨ c = '\r' then skipWs cs else c :: cs

/-- Parse the remainder of a JSON string literal after the opening quote
(core grammar: no escape sequences). -/
def parseStringBody : List Char → Option (String × List Char)
  | [] => none
  | c :: cs =>
    if c = '"' then some ("", cs)
    else
      match parseStringBody cs with
      | some (s, r) => some (String.mk (c :: s.data), r)
      | none => none

/-- Consume leading decimal digits, accumulating their value. -/
def takeDigits (acc : Nat) : List Char → Nat × List Char
  | [] => (acc, [])
  | c :: cs =>
    if c.isDigit then takeDigits (acc * 10 + (c.toNat - 48)) (cs)
    else (acc, c :: cs)

/-- Parse a JSON integer numeral (optional leading minus sign). -/
def parseNumber : List Char → Option (JValue × List Char)
  | [] => none
  | '-' :: rest =>
    match rest with
    | [] => none
    | c :: _ =>
      if c.isDigit then
        let p := takeDigits 0 rest
        some (JValue.num (-(p.1 : Int)), p.2)
      else none
  | c :: cs =>
    if c.isDigit then
      let p := takeDigits 0 (c :: cs)
      some (JValue.num (p.1 : Int), p.2)
    else none

mutual

/-- Fuel-indexed recursive-descent parser for one JSON value. -/
def parseValue : Nat → List Char → Option (JValue × List Char)
  | 0, _ => none
  | Nat.succ f, cs =>
    match skipWs cs with
    | 'n' :: 'u' :: 'l' :: 'l' :: rest => some (JValue.null, rest)
    | 't' :: 'r' :: 'u' :: 'e' :: rest => some (JValue.bool true, rest)
    | 'f' :: 'a' :: 'l' :: 's' :: 'e' :: rest => some (JValue.bool false, rest)
    | '"' :: rest =>
      match parseStringBody rest with
      | some (s, r) => some (JValue.str s, r)
      | none => none
    | '[' :: rest =>
      match skipWs rest with
      | ']' :: r => some (JValue.arr [], r)
      | _ =>
        match parseItems f rest with
        | some (xs, r) => some (JValue.arr xs, r)
        | none => none
    | '\x7b' :: rest =>
      match skipWs rest with
      | '\x7d' :: r => some (JValue.obj [], r)
      | _ =>
        match parseFields f rest with
        | some (fs, r) => some (JValue.obj fs, r)
        | none => none
    | other => parseNumber other

/-- Parse the comma-separated items of a nonempty JSON array, including the
closing bracket. -/
def parseItems : Nat → List Char → Option (List JValue × List Char)
  | 0, _ => none
  | Nat.succ f, cs =>
    match parseValue f cs with
    | some (v, r1) =>
      match skipWs r1 with
      | ',' :: r2 =>
        match parseItems f r2 with
        | some (xs, r3) => some (v :: xs, r3)
        | none => none
      | ']' :: r2 => some ([v], r2)
      | _ => none
    | none => none

/-- Parse the comma-separated members of a nonempty JSON object, including the
closing brace. -/
def parseFields : Nat → List Char → Option (List (String × JValue) × List Char)
  | 0, _ => none
  | Nat.succ f, cs =>
    match skipWs cs with
    | '"' :: rest =>
      match parseStringBody rest with
      | some (k, r1) =>
        match skipWs r1 with
        | ':' :: r2 =>
          match parseValue f r2 with
          | some (v, r3) =>
            match skipWs r3 with
            | ',' :: r4 =>
              match parseFields f r4 with
              | some (fs, r5) => some ((k, v) :: fs, r5)
              | none => none
            | '\x7d' :: r4 => some ([(k, v)], r4)
            | _ => none
          | none => none
        | _ => none
      | none => none
    | _ => none

end

/-- Model of Python `json.loads` (used by `r.json()` at client.py line 56):
parse one JSON value and require the rest of the body to be whitespace. -/
def json_loads (s : String) : Option JValue :=
  match parseValue (2 * s.length + 2) s.data with
  | some (v, rest) => if skipWs rest = [] then some v else none
  | none => none

/-- `Client.process_json` (client.py lines 55-57): `return r.json()` — the
parsed nested mapping is passed through unchanged; an unparseable body raises
a decode failure. -/
def process_json (body : String) : Except ClientError JValue :=
  match json_loads body with
  | some j => Except.ok j
  | none => Except.error ClientError.decodeError

/-- The result of one normalized call: a time-series table (CSV branch) or a
structured payload (JSON branch). -/
inductive Payload where
  | table (t : Table)
  | json (j : JValue)
deriving Repr

/-- Observable outcome of one operation invocation: the returned value or
raised error, the number of transport invocations performed, and the client
object's state after the call. -/
structure CallResult where
  result : Except ClientError Payload
  transport_calls : Nat
  client : Client

/-- The supported operations, one per public method of `Client` in client.py. -/
inductive Op where
  | ts_daily
  | sma
  | ema
  | wma
  | macd
  | stoch
  | rsi
  | momentum
  | ppo
  | ad
  | adx
  | cci
  | aroon
  | aroon_osc
  | ultimate_osc
  | hilbert_transform_sine
  | hilbert_transform_trendmode
  | hilbert_transform_dcperiod
deriving Repr, DecidableEq

/-- Caller-supplied arguments; each operation reads only the fields that occur
in its Python signature. -/
structure Args where
  symbol : String
  adjusted : Bool
  output_size : String
  interval : String
  time_period : Int
  series_type : String
  data_format : String
  fast : Int
  slow : Int
  signal : Int
  fastk : Int
  slowk : Int
  slowd : Int
  time_period1 : Int
  time_period2 : Int
  time_period3 : Int
deriving Repr

/-- The `assert` checks performed by each method before any network activity
(e.g. client.py lines 107-109 for `sma`, lines 72-73 for `ts_daily`). -/
def validArgs (op : Op) (a : Args) : Bool :=
  match op with
  | Op.ts_daily =>
    output_sizes.contains a.output_size && data_formats.contains a.data_format
  | Op.sma =>
    intervals.contains a.interval && series_types.contains a.series_type
      && data_formats.contains a.data_format
  | Op.ema =>
    intervals.contains a.interval && series_types.contains a.series_type
      && data_formats.contains a.data_format
  | Op.wma =>
    intervals.contains a.interval && series_types.contains a.series_type
      && data_formats.contains a.data_format
  | Op.macd =>
    intervals.contains a.interval && series_types.contains a.series_type
      && data_formats.contains a.data_format
  | Op.stoch =>
    intervals.contains a.interval && data_formats.contains a.data_format
  | Op.rsi =>
    intervals.contains a.interval && series_types.contains a.series_type
      && data_formats.contains a.data_format
  | Op.momentum =>
    intervals.contains a.interval && series_types.contains a.series_type
      && data_formats.contains a.data_format
  | Op.ppo =>
    intervals.contains a.interval && series_types.contains a.series_type
      && data_formats.contains a.data_format
  | Op.ad =>
    intervals.contains a.interval && data_formats.contains a.data_format
  | Op.adx =>
    intervals.contains a.interval && data_formats.contains a.data_format
  | Op.cci =>
    intervals.contains a.interval && data_formats.contains a.data_format
  | Op.aroon =>
    intervals.contains a.interval && data_formats.contains a.data_format
  | Op.aroon_osc =>
    intervals.contains a.interval && data_formats.contains a.data_format
  | Op.ultimate_osc =>
    intervals.contains a.interval && data_formats.contains a.data_format
  | Op.hilbert_transform_sine =>
    intervals.contains a.interval && series_types.contains a.series_type
      && data_formats.contains a.data_format
  | Op.hilbert_transform_trendmode =>
    intervals.contains a.interval && series_types.contains a.series_type
      && data_formats.contains a.data_format
  | Op.hilbert_transform_dcperiod =>
    intervals.contains a.interval && series_types.contains a.series_type
      && data_formats.contains a.data_format

/-- The parameter-mapping literal built by each method, in source order, with
the credential appended last (e.g. client.py lines 110-118 for `sma`,
lines 74-83 for `ts_daily`, lines 414-421 for `adx`). -/
def buildParams (c : Client) (op : Op) (a : Args) : List (String × PValue) :=
  match op with
  | Op.ts_daily =>
    let func := "TIME_SERIES_DAILY"
    let func := if a.adjusted then func ++ "_ADJUSTED" else func
    [("function", PValue.str func),
     ("symbol", PValue.str (pyUpper a.symbol)),
     ("outputsize", PValue.str a.output_size),
     ("datatype", PValue.str a.data_format),
     ("apikey", PValue.str c.apikey)]
  | Op.sma =>
    [("function", PValue.str "SMA"),
     ("symbol", PValue.str (pyUpper a.symbol)),
     ("interval", PValue.str a.interval),
     ("time_period", PValue.int a.time_period),
     ("series_type", PValue.str a.series_type),
     ("datatype", PValue.str a.data_format),
     ("apikey", PValue.str c.apikey)]
  | Op.ema =>
    [("function", PValue.str "EMA"),
     ("symbol", PValue.str (pyUpper a.symbol)),
     ("interval", PValue.str a.interval),
     ("time_period", PValue.int a.time_period),
     ("series_type", PValue.str a.series_type),
     ("datatype", PValue.str a.data_format),
     ("apikey", PValue.str c.apikey)]
  | Op.wma =>
    [("function", PValue.str "WMA"),
     ("symbol", PValue.str (pyUpper a.symbol)),
     ("interval", PValue.str a.interval),
     ("time_period", PValue.int a.time_period),
     ("series_type", PValue.str a.series_type),
     ("datatype", PValue.str a.data_format),
     ("apikey", PValue.str c.apikey)]
  | Op.macd =>
    [("function", PValue.str "MACD"),
     ("symbol", PValue.str (pyUpper a.symbol)),
     ("interval", PValue.str a.interval),
     ("fastperiod", PValue.int a.fast),
     ("slowperiod", PValue.int a.slow),
     ("signalperiod", PValue.int a.signal),
     ("series_type", PValue.str a.series_type),
     ("datatype", PValue.str a.data_format),
     ("apikey", PValue.str c.apikey)]
  | Op.stoch =>
    [("function", PValue.str "STOCH"),
     ("symbol", PValue.str (pyUpper a.symbol)),
     ("interval", PValue.str a.interval),
     ("fastkperiod", PValue.int a.fastk),
     ("slowkperiod", PValue.int a.slowk),
     ("slowdperiod", PValue.int a.slowd),
     ("datatype", PValue.str a.data_format),
     ("apikey", PValue.str c.apikey)]
  | Op.rsi =>
    [("function", PValue.str "RSI"),
     ("symbol", PValue.str (pyUpper a.symbol)),
     ("interval", PValue.str a.interval),
     ("time_period", PValue.int a.time_period),
     ("series_type", PValue.str a.series_type),
     ("datatype", PValue.str a.data_format),
     ("apikey", PValue.str c.apikey)]
  | Op.momentum =>
    [("function", PValue.str "MOM"),
     ("symbol", PValue.str (pyUpper a.symbol)),
     ("interval", PValue.str a.interval),
     ("time_period", PValue.int a.time_period),
     ("series_type", PValue.str a.series_type),
     ("datatype", PValue.str a.data_format),
     ("apikey", PValue.str c.apikey)]
  | Op.ppo =>
    [("function", PValue.str "PPO"),
     ("symbol", PValue.str (pyUpper a.symbol)),
     ("interval", PValue.str a.interval),
     ("fastperiod", PValue.int a.fast),
     ("slowperiod", PValue.int a.slow),
     ("series_type", PValue.str a.series_type),
     ("datatype", PValue.str a.data_format),
     ("apikey", PValue.str c.apikey)]
  | Op.ad =>
    [("function", PValue.str "AD"),
     ("symbol", PValue.str (pyUpper a.symbol)),
     ("interval", PValue.str a.interval),
     ("datatype", PValue.str a.data_format),
     ("apikey", PValue.str c.apikey)]
  | Op.adx =>
    [("function", PValue.str "ADX"),
     ("symbol", PValue.str (pyUpper a.symbol)),
     ("interval", PValue.str a.interval),
     ("time_period", PValue.str (toString a.time_period)),
     ("datatype", PValue.str a.data_format),
     ("apikey", PValue.str c.apikey)]
  | Op.cci =>
    [("function", PValue.str "CCI"),
     ("symbol", PValue.str (pyUpper a.symbol)),
     ("interval", PValue.str a.interval),
     ("time_period", PValue.str (toString a.time_period)),
     ("datatype", PValue.str a.data_format),
     ("apikey", PValue.str c.apikey)]
  | Op.aroon =>
    [("function", PValue.str "AROON"),
     ("symbol", PValue.str (pyUpper a.symbol)),
     ("interval", PValue.str a.interval),
     ("time_period", PValue.str (toString a.time_period)),
     ("datatype", PValue.str a.data_format),
     ("apikey", PValue.str c.apikey)]
  | Op.aroon_osc =>
    [("function", PValue.str "AROONOSC"),
     ("symbol", PValue.str (pyUpper a.symbol)),
     ("interval", PValue.str a.interval),
     ("time_period", PValue.str (toString a.time_period)),
     ("datatype", PValue.str a.data_format),
     ("apikey", PValue.str c.apikey)]
  | Op.ultimate_osc =>
    [("function", PValue.str "ULTOSC"),
     ("symbol", PValue.str (pyUpper a.symbol)),
     ("interval", PValue.str a.interval),
     ("timeperiod1", PValue.str (toString a.time_period1)),
     ("timeperiod2", PValue.str (toString a.time_period2)),
     ("timeperiod3", PValue.str (toString a.time_period3)),
     ("datatype", PValue.str a.data_format),
     ("apikey", PValue.str c.apikey)]
  | Op.hilbert_transform_sine =>
    [("function", PValue.str "HT_SINE"),
     ("symbol", PValue.str (pyUpper a.symbol)),
     ("interval", PValue.str a.interval),
     ("series_type", PValue.str a.series_type),
     ("datatype", PValue.str a.data_format),
     ("apikey", PValue.str c.apikey)]
  | Op.hilbert_transform_trendmode =>
    [("function", PValue.str "HT_TRENDMODE"),
     ("symbol", PValue.str (pyUpper a.symbol)),
     ("interval", PValue.str a.interval),
     ("series_type", PValue.str a.series_type),
     ("datatype", PValue.str a.data_format),
     ("apikey", PValue.str c.apikey)]
  | Op.hilbert_transform_dcperiod =>
    [("function", PValue.str "HT_DCPERIOD"),
     ("symbol", PValue.str (pyUpper a.symbol)),
     ("interval", PValue.str a.interval),
     ("series_type", PValue.str a.series_type),
     ("datatype", PValue.str a.data_format),
     ("apikey", PValue.str c.apikey)]

/-- The shared tail of every method: one `requests.get`, `raise_for_status`,
then dispatch on the declared format to `process_csv` or `process_json`
(e.g. client.py lines 119-124). -/
def runRequest (c : Client) (data_format : String)
    (params : List (String × PValue)) (t : Transport) : CallResult :=
  match t params with
  | HttpResponse.error =>
    { result := Except.error ClientError.transportError, transport_calls := 1, client := c }
  | HttpResponse.response status body =>
    if 400 ≤ status ∧ status < 600 then
      { result := Except.error ClientError.transportError, transport_calls := 1, client := c }
    else if data_format = "csv" then
      { result := (process_csv body).map Payload.table, transport_calls := 1, client := c }
    else
      { result := (process_json body).map Payload.json, transport_calls := 1, client := c }

/-- One operation invocation: run the method's `assert` checks (an assertion
failure raises before any network activity), then build the parameter mapping
and perform the single request/normalize sequence. -/
def Client.call (c : Client) (op : Op) (a : Args) (t : Transport) : CallResult :=
  if validArgs op a then runRequest c a.data_format (buildParams c op a) t
  else
    { result := Except.error ClientError.invalidArgument, transport_calls := 0, client := c }

/-! ## Helper lemmas -/

theorem toNat_charOfNat_valid (n : Nat) (h : n.isValidChar) : (Char.ofNat n).toNat = n := by
  rw [Char.ofNat, dif_pos h]; rfl

theorem pyUpperChar_toNat_of_lower {c : Char} (h : 97 ≤ c.toNat ∧ c.toNat ≤ 122) :
    (pyUpperChar c).toNat = c.toNat - 32 := by
  rw [pyUpperChar, if_pos h]
  exact toNat_charOfNat_valid _ (Or.inl (by omega))

theorem pyUpperChar_idem (c : Char) : pyUpperChar (pyUpperChar c) = pyUpperChar c := by
  by_cases h : 97 ≤ c.toNat ∧ c.toNat ≤ 122
  · have ht := pyUpperChar_toNat_of_lower h
    have hn : ¬ (97 ≤ (pyUpperChar c).toNat ∧ (pyUpperChar c).toNat ≤ 122) := by omega
    conv_lhs => rw [pyUpperChar]
    rw [if_neg hn]
  · have hc : pyUpperChar c = c := by rw [pyUpperChar, if_neg h]
    rw [hc, hc]

theorem pyUpper_idem (s : String) : pyUpper (pyUpper s) = pyUpper s := by
  unfold pyUpper
  congr 1
  simp only [List.map_map]
  exact List.map_congr_left (fun c _ => pyUpperChar_idem c)

theorem lookup_symbol_buildParams (c : Client) (op : Op) (a : Args) :
    List.lookup "symbol" (buildParams c op a) = some (PValue.str (pyUpper a.symbol)) := by
  cases op <;> rfl

theorem renameFirst_cons (h0 : String) (hs : List String) :
    renameFirst (h0 :: hs) = "time" :: hs := by
  rw [renameFirst]
  by_cases h : h0 = "time" <;> simp [h]

/-! ## Claim theorems -/

/-- C4: for every operation and every argument assignment, the built parameter
mapping has pairwise-distinct keys, contains `function`, `datatype` and the
upper-cased `symbol`, and ends with the credential pair `apikey`; the key set
and ordering are deterministic because `buildParams` is a pure function of its
inputs. -/
theorem params_mapping_shape (c : Client) (op : Op) (a : Args) :
    ((buildParams c op a).map Prod.fst).Nodup
    ∧ "function" ∈ (buildParams c op a).map Prod.fst
    ∧ "datatype" ∈ (buildParams c op a).map Prod.fst
    ∧ List.lookup "symbol" (buildParams c op a) = some (PValue.str (pyUpper a.symbol))
    ∧ (buildParams c op a).getLast? = some ("apikey", PValue.str c.apikey) := by
  refine ⟨?_, ?_, ?_, lookup_symbol_buildParams c op a, ?_⟩ <;>
    cases op <;> first | rfl | simp [buildParams]

/-- C5: the daily time-series operation's `function` value is
`TIME_SERIES_DAILY_ADJUSTED` exactly when the adjusted-price flag is set, and
`TIME_SERIES_DAILY` otherwise. -/
theorem ts_daily_function_code (c : Client) (a : Args) :
    (a.adjusted = true →
      List.lookup "function" (buildParams c Op.ts_daily a)
        = some (PValue.str "TIME_SERIES_DAILY_ADJUSTED"))
    ∧ (a.adjusted = false →
      List.lookup "function" (buildParams c Op.ts_daily a)
        = some (PValue.str "TIME_SERIES_DAILY")) := by
  constructor <;> intro h <;> simp [buildParams, h, List.lookup]

/-- C5 witness: both branches at concrete inputs. -/
theorem ts_daily_function_code_witness :
    List.lookup "function"
        (buildParams (Client.init "k" 3) Op.ts_daily
          ⟨"ibm", true, "full", "daily", 15, "close", "csv", 12, 26, 9, 5, 3, 3, 7, 14, 28⟩)
      = some (PValue.str "TIME_SERIES_DAILY_ADJUSTED")
    ∧ List.lookup "function"
        (buildParams (Client.init "k" 3) Op.ts_daily
          ⟨"ibm", false, "full", "daily", 15, "close", "csv", 12, 26, 9, 5, 3, 3, 7, 14, 28⟩)
      = some (PValue.str "TIME_SERIES_DAILY") :=
  ⟨(ts_daily_function_code _ _).1 rfl, (ts_daily_function_code _ _).2 rfl⟩

/-- C6: every operation marshals `symbol` as the upper-cased input, and the
upper-casing is idempotent (an already-uppercase symbol maps to itself). -/
theorem symbol_uppercased (c : Client) (op : Op) (a : Args) :
    List.lookup "symbol" (buildParams c op a) = some (PValue.str (pyUpper a.symbol))
    ∧ pyUpper (pyUpper a.symbol) = pyUpper a.symbol :=
  ⟨lookup_symbol_buildParams c op a, pyUpper_idem a.symbol⟩

/-- C10: `sma`, `ema`, `wma`, `macd`, `rsi` and `momentum` marshal their
numeric period arguments as raw integers, while `adx`, `cci`, `aroon`,
`aroon_osc` and `ultimate_osc` marshal the decimal string representation. -/
theorem period_value_kinds (c : Client) (a : Args) :
    List.lookup "time_period" (buildParams c Op.sma a) = some (PValue.int a.time_period)
    ∧ List.lookup "time_period" (buildParams c Op.ema a) = some (PValue.int a.time_period)
    ∧ List.lookup "time_period" (buildParams c Op.wma a) = some (PValue.int a.time_period)
    ∧ List.lookup "fastperiod" (buildParams c Op.macd a) = some (PValue.int a.fast)
    ∧ List.lookup "slowperiod" (buildParams c Op.macd a) = some (PValue.int a.slow)
    ∧ List.lookup "signalperiod" (buildParams c Op.macd a) = some (PValue.int a.signal)
    ∧ List.lookup "time_period" (buildParams c Op.rsi a) = some (PValue.int a.time_period)
    ∧ List.lookup "time_period" (buildParams c Op.momentum a) = some (PValue.int a.time_period)
    ∧ List.lookup "time_period" (buildParams c Op.adx a)
        = some (PValue.str (toString a.time_period))
    ∧ List.lookup "time_period" (buildParams c Op.cci a)
        = some (PValue.str (toString a.time_period))
    ∧ List.lookup "time_period" (buildParams c Op.aroon a)
        = some (PValue.str (toString a.time_period))
    ∧ List.lookup "time_period" (buildParams c Op.aroon_osc a)
        = some (PValue.str (toString a.time_period))
    ∧ List.lookup "timeperiod1" (buildParams c Op.ultimate_osc a)
        = some (PValue.str (toString a.time_period1))
    ∧ List.lookup "timeperiod2" (buildParams c Op.ultimate_osc a)
        = some (PValue.str (toString a.time_period2))
    ∧ List.lookup "timeperiod3" (buildParams c Op.ultimate_osc a)
        = some (PValue.str (toString a.time_period3)) :=
  ⟨rfl, rfl, rfl, rfl, rfl, rfl, rfl, rfl, rfl, rfl, rfl, rfl, rfl, rfl, rfl⟩

/-- C9: no operation mutates the client: the stored credential, base URL and
`max_attempts` after any call (successful or failing) equal their values from
construction. -/
theorem client_state_unchanged (c : Client) (op : Op) (a : Args) (t : Transport) :
    (Client.call c op a t).client = c := by
  unfold Client.call runRequest
  repeat' split
  all_goals rfl

/-- C3: every invocation performs at most one transport call; a transport
failure (connection error or non-success status) surfaces immediately as the
single transport error with exactly one transport invocation and no
normalization attempted; and the configured `max_attempts` value has no effect
on the outcome (no retry is ever performed). -/
theorem single_request_no_retry (c : Client) (op : Op) (a : Args) (t : Transport) :
    (Client.call c op a t).transport_calls ≤ 1
    ∧ (validArgs op a = true → transportFails (t (buildParams c op a)) = true →
        Client.call c op a t
          = { result := Except.error ClientError.transportError
              transport_calls := 1, client := c })
    ∧ (∀ m : Int,
        (Client.call (Client.mk c.apikey c.base_url m) op a t).result
          = (Client.call c op a t).result
        ∧ (Client.call (Client.mk c.apikey c.base_url m) op a t).transport_calls
          = (Client.call c op a t).transport_calls) := by
  have hb : ∀ m : Int,
      buildParams (Client.mk c.apikey c.base_url m) op a = buildParams c op a := by
    intro m; cases op <;> rfl
  refine ⟨?_, ?_, ?_⟩
  · unfold Client.call runRequest
    repeat' split
    all_goals simp
  · intro hv hf
    unfold Client.call
    rw [if_pos hv]
    cases ht : t (buildParams c op a) with
    | error => simp [runRequest, ht]
    | response status body =>
      rw [ht] at hf
      simp only [transportFails, decide_eq_true_eq] at hf
      simp [runRequest, ht, hf]
  · intro m
    unfold Client.call
    by_cases hv : validArgs op a
    · rw [if_pos hv, if_pos hv, hb m]
      constructor
      · cases ht : t (buildParams c op a) <;> (simp [runRequest, ht]; repeat' split)
        all_goals rfl
      · cases ht : t (buildParams c op a) <;> (simp [runRequest, ht]; repeat' split)
        all_goals rfl
    · rw [if_neg hv, if_neg hv]
      exact ⟨rfl, rfl⟩

/-- C3 witness: a failing transport at a concrete valid call yields exactly
one transport invocation and an immediate transport error. -/
theorem single_request_no_retry_witness :
    Client.call (Client.init "k" 3) Op.sma
        ⟨"ibm", true, "full", "daily", 15, "close", "csv", 12, 26, 9, 5, 3, 3, 7, 14, 28⟩
        (fun _ => HttpResponse.error)
      = { result := Except.error ClientError.transportError
          transport_calls := 1, client := Client.init "k" 3 } :=
  (single_request_no_retry (Client.init "k" 3) Op.sma
      ⟨"ibm", true, "full", "daily", 15, "close", "csv", 12, 26, 9, 5, 3, 3, 7, 14, 28⟩
      (fun _ => HttpResponse.error)).2.1 rfl rfl

/-- C1: whenever an enumerated argument falls outside its fixed allowed-value
set (so the method's `assert` checks fail), the call raises the invalid-argument
error with zero transport invocations; in particular a declared format outside
the `data_formats` set fails every operation's checks. -/
theorem invalid_enum_no_network (c : Client) (op : Op) (a : Args) (t : Transport) :
    (validArgs op a = false →
      Client.call c op a t
        = { result := Except.error ClientError.invalidArgument
            transport_calls := 0, client := c })
    ∧ (data_formats.contains a.data_format = false → validArgs op a = false) := by
  constructor
  · intro h
    unfold Client.call
    rw [if_neg (by simp [h])]
  · intro h
    simp at h
    cases op <;> simp [validArgs, h]

/-- C1 witness: a declared format outside the set at a concrete call performs
zero transport invocations and raises the invalid-argument error. -/
theorem invalid_enum_no_network_witness :
    validArgs Op.sma
        ⟨"ibm", true, "full", "daily", 15, "close", "xml", 12, 26, 9, 5, 3, 3, 7, 14, 28⟩
      = false
    ∧ Client.call (Client.init "k" 3) Op.sma
        ⟨"ibm", true, "full", "daily", 15, "close", "xml", 12, 26, 9, 5, 3, 3, 7, 14, 28⟩
        (fun _ => HttpResponse.error)
      = { result := Except.error ClientError.invalidArgument
          transport_calls := 0, client := Client.init "k" 3 } :=
  ⟨(invalid_enum_no_network (Client.init "k" 3) Op.sma
      ⟨"ibm", true, "full", "daily", 15, "close", "xml", 12, 26, 9, 5, 3, 3, 7, 14, 28⟩
      (fun _ => HttpResponse.error)).2 rfl,
   (invalid_enum_no_network (Client.init "k" 3) Op.sma
      ⟨"ibm", true, "full", "daily", 15, "close", "xml", 12, 26, 9, 5, 3, 3, 7, 14, 28⟩
      (fun _ => HttpResponse.error)).1 rfl⟩

/-- C2: for every delimited body that decodes with a header row, normalization
renames the first header cell to `time` (a no-op when it already reads
`time`), uses the first column as the row key, and returns all data rows in
response order with cell values unmodified. -/
theorem csv_normalization (body h0 : String) (hs : List String)
    (rows : List (List String))
    (hr : read_csv body = Except.ok (h0 :: hs, rows)) :
    process_csv body
      = Except.ok { index := "time", columns := hs
                    rows := rows.map (fun r => (r.headD "", r.tail)) } := by
  simp only [process_csv, hr, renameFirst_cons]
  rfl

/-- C2 witness: the two-row body with header `date,open` yields the table with
column `time` and both rows in order, values unmodified. -/
theorem csv_normalization_witness :
    process_csv "date,open\n2020-01-01,100\n2020-01-02,101"
      = Except.ok { index := "time", columns := ["open"]
                    rows := [("2020-01-01", ["100"]), ("2020-01-02", ["101"])] } :=
  csv_normalization "date,open\n2020-01-01,100\n2020-01-02,101" "date" ["open"]
    [["2020-01-01", "100"], ["2020-01-02", "101"]] rfl

/-- C7: a delimited body whose data rows have inconsistent column counts fails
CSV normalization with the decode error (no partial table is returned), and an
unparseable body fails JSON normalization with the decode error. -/
theorem malformed_body_decode_error (body headerLine jbody : String)
    (rest : List String) :
    (splitLines body = headerLine :: rest →
      (∃ l ∈ rest, (splitFields ',' l).length ≠ (splitFields ',' headerLine).length) →
      process_csv body = Except.error ClientError.decodeError)
    ∧ (json_loads jbody = none →
      process_json jbody = Except.error ClientError.decodeError) := by
  constructor
  · intro hsplit hbad
    have hfalse : ((rest.map (fun l => splitFields ',' l)).all
        (fun r => r.length = (splitFields ',' headerLine).length)) = false := by
      rw [List.all_eq_false]
      obtain ⟨l, hl, hne⟩ := hbad
      exact ⟨_, List.mem_map_of_mem _ hl, by simpa using hne⟩
    simp [process_csv, read_csv, hsplit, hfalse]
  · intro hp
    simp [process_json, hp]

/-- C7 witness: a concrete ragged CSV body and a concrete non-JSON body each
fail with the decode error. -/
theorem malformed_body_decode_error_witness :
    process_csv "a,b\n1,2,3" = Except.error ClientError.decodeError
    ∧ process_json "not json" = Except.error ClientError.decodeError :=
  ⟨(malformed_body_decode_error "a,b\n1,2,3" "a,b" "not json" ["1,2,3"]).1 rfl
      ⟨"1,2,3", by decide, by decide⟩,
   (malformed_body_decode_error "a,b\n1,2,3" "a,b" "not json" ["1,2,3"]).2 rfl⟩

/-- C8: for every well-formed JSON body, a call under declared format `json`
returns the parsed nested mapping unchanged (no schema validation or
transformation) as its structured payload. -/
theorem json_passthrough (c : Client) (op : Op) (a : Args) (body : String)
    (j : JValue) (hv : validArgs op a = true) (hf : a.data_format = "json")
    (hp : json_loads body = some j) :
    Client.call c op a (fun _ => HttpResponse.response 200 body)
      = { result := Except.ok (Payload.json j), transport_calls := 1, client := c } := by
  unfold Client.call
  rw [if_pos hv]
  simp [runRequest, hf, process_json, hp, Except.map,
    show ¬(400 ≤ 200 ∧ 200 < 600) by omega]

/-- C8 witness: the body with one field `a` mapped to `1` yields exactly that
nested mapping. -/
theorem json_passthrough_witness :
    Client.call (Client.init "k" 3) Op.sma
        ⟨"ibm", true, "full", "daily", 15, "close", "json", 12, 26, 9, 5, 3, 3, 7, 14, 28⟩
        (fun _ => HttpResponse.response 200 "\x7b\"a\": 1\x7d")
      = { result := Except.ok (Payload.json (JValue.obj [("a", JValue.num 1)]))
          transport_calls := 1, client := Client.init "k" 3 } :=
  json_passthrough (Client.init "k" 3) Op.sma
    ⟨"ibm", true, "full", "daily", 15, "close", "json", 12, 26, 9, 5, 3, 3, 7, 14, 28⟩
    "\x7b\"a\": 1\x7d" (JValue.obj [("a", JValue.num 1)]) rfl rfl rfl
